import Mathlib

/-!
Verification of the DarijaLang runtime support library
(`src/darija_runtime.c`, `src/darija_runtime.h`).

The runtime keeps three globals: `__darija_jmp_buf` (an array of
`MAX_EXCEPTION_HANDLERS = 32` captured execution contexts),
`__darija_handler_idx` (a C `int` counting active handlers) and
`__darija_current_exception` (the pending exception message, a possibly
null string).  We embed this mutable state as an explicit `RuntimeState`
record, and each runtime function as a pure function from state to a
`CallResult` describing what the call did: returned normally, performed a
`longjmp` to a stored context, or terminated the process via `exit`.
Captured execution contexts are opaque tokens (`Nat`); the jump buffer is
a list of 32 optional tokens.
-/

/-- The process-wide mutable state of the runtime's exception mechanism:
`handler_idx` embeds the C global `__darija_handler_idx` (a C `int`, hence
`Int`), `current_exception` embeds `__darija_current_exception` (`NULL`
becomes `none`), and `jmp_buf` embeds the array `__darija_jmp_buf`, each
cell either empty or holding an opaque captured context. -/
structure RuntimeState where
  handler_idx : Int
  current_exception : Option String
  jmp_buf : List (Option Nat)
deriving DecidableEq, Repr

/-- The observable outcome of one runtime call: a normal return carrying a
value, the resulting state and the text written to stdout and stderr; a
`longjmp` to the context stored at index `target` of the jump buffer; or
process termination with an exit code.  `__darija_throw` never produces
`ret`: both of its branches end in `longjmp` or `exit`. -/
inductive CallResult (α : Type) where
  | ret (value : α) (st : RuntimeState) (stdoutS : String) (stderrS : String)
  | jump (target : Int) (st : RuntimeState) (stdoutS : String) (stderrS : String)
  | exitP (code : Int) (st : RuntimeState) (stdoutS : String) (stderrS : String)
deriving DecidableEq, Repr

/-- `#define MAX_EXCEPTION_HANDLERS 32` from `darija_runtime.h`. -/
def MAX_EXCEPTION_HANDLERS : Int := 32

/-- The state at process start: `__darija_handler_idx = 0`,
`__darija_current_exception = NULL`, and an uninitialised (empty-token)
jump buffer of 32 cells. -/
def initState : RuntimeState :=
  { handler_idx := 0, current_exception := none
    jmp_buf := List.replicate 32 none }

/-- `__darija_push_handler` from `darija_runtime.c`: if the index is below
capacity it is incremented; otherwise the runtime prints the fatal
diagnostic to stderr and calls `exit(1)`.  The `id` argument is accepted
and ignored, exactly as in the source. -/
def __darija_push_handler (id : Int) (st : RuntimeState) : CallResult Unit :=
  if st.handler_idx < MAX_EXCEPTION_HANDLERS then
    CallResult.ret () { st with handler_idx := st.handler_idx + 1 } "" ""
  else
    CallResult.exitP 1 st "" "Error: Too many nested try blocks\n"

/-- `__darija_pop_handler` from `darija_runtime.c`: decrements the index
when it is positive, otherwise does nothing.  The C function is `void`,
performs no I/O and never exits, so we embed it as a plain state map. -/
def __darija_pop_handler (st : RuntimeState) : RuntimeState :=
  if st.handler_idx > 0 then { st with handler_idx := st.handler_idx - 1 }
  else st

/-- `__darija_throw` from `darija_runtime.c`: with an active handler it
stores `strdup(message)` (a fresh copy, overwriting the previous pointer
without freeing it) into `__darija_current_exception` and performs
`longjmp(__darija_jmp_buf[__darija_handler_idx - 1], 1)`; with no active
handler it prints `Uncaught exception: <message>` to stderr and calls
`exit(1)`.  Neither branch returns. -/
def __darija_throw (message : String) (st : RuntimeState) : CallResult Unit :=
  if st.handler_idx > 0 then
    CallResult.jump (st.handler_idx - 1)
      { st with current_exception := some message } "" ""
  else
    CallResult.exitP 1 st "" ("Uncaught exception: " ++ message ++ "\n")

/-- `tba3` from `darija_runtime.c`: `printf("%d\n", value)`; we return the
text written to stdout. -/
def tba3 (value : Int) : String :=
  toString value ++ "\n"

/-- `tba3_str` from `darija_runtime.c`: `puts("null")` on a `NULL`
argument, `puts(s)` otherwise (`puts` appends a newline). -/
def tba3_str (s : Option String) : String :=
  match s with
  | none => "null\n"
  | some str => str ++ "\n"

/-- `_9rahadi` from `darija_runtime.c`: `scanf("%d", &value)`; the
parameter `scanned` is the outcome of the `scanf` call (`some v` when one
integer was matched, `none` on parse failure).  On failure the function
prints a diagnostic to stderr and returns 0; it never exits or jumps. -/
def _9rahadi (scanned : Option Int) (st : RuntimeState) : CallResult Int :=
  match scanned with
  | some v => CallResult.ret v st "" ""
  | none => CallResult.ret 0 st "" "Error: failed to read integer input\n"

/-- `_darija_exit` from `darija_runtime.c`: `exit(code)`, touching no
runtime state. -/
def _darija_exit (code : Int) (st : RuntimeState) : CallResult Unit :=
  CallResult.exitP code st "" ""

/-- Modelled from the spec: the full `EnterTry(id)` operation.  The spec
says EnterTry `registers a new resumption point capturing the current
execution context`; the `setjmp` that writes the context into
`__darija_jmp_buf[__darija_handler_idx]` is emitted by the compiler into
generated code, which is not among the runtime sources — only the array's
declaration and `__darija_push_handler` are.  We model the capture as
writing an opaque token `ctx` into the slot that `__darija_push_handler`
then reserves by incrementing the index; when the stack is full no capture
happens and `__darija_push_handler` terminates the process. -/
def EnterTry (id : Int) (ctx : Nat) (st : RuntimeState) : CallResult Unit :=
  if st.handler_idx < MAX_EXCEPTION_HANDLERS then
    __darija_push_handler id
      { st with jmp_buf := st.jmp_buf.set st.handler_idx.toNat (some ctx) }
  else
    __darija_push_handler id st

/-- `n` consecutive `__darija_push_handler` calls, stopping at the first
non-returning outcome. -/
def enterN : Nat → RuntimeState → CallResult Unit
  | 0, st => CallResult.ret () st "" ""
  | n + 1, st =>
    match __darija_push_handler 0 st with
    | CallResult.ret _ st' _ _ => enterN n st'
    | r => r

/-- `n` consecutive `__darija_pop_handler` calls. -/
def exitN : Nat → RuntimeState → RuntimeState
  | 0, st => st
  | n + 1, st => exitN n (__darija_pop_handler st)

/-- The states the runtime can actually be in: the start state, and
anything produced by a successful push, a pop, a throw that lands in a
handler, or a context capture by generated code (a `setjmp`, which writes
only into the jump buffer). -/
inductive Reachable : RuntimeState → Prop where
  | init : Reachable initState
  | push {st st' : RuntimeState} {id : Int} {o e : String} :
      Reachable st → __darija_push_handler id st = CallResult.ret () st' o e →
      Reachable st'
  | pop {st : RuntimeState} :
      Reachable st → Reachable (__darija_pop_handler st)
  | throwJump {st st' : RuntimeState} {msg : String} {t : Int} {o e : String} :
      Reachable st → __darija_throw msg st = CallResult.jump t st' o e →
      Reachable st'
  | capture {st : RuntimeState} {b : List (Option Nat)} :
      Reachable st → Reachable { st with jmp_buf := b }

/-! ## Claim theorems -/

/-- Claim C1: with depth > 0, `__darija_throw` stores a fresh copy of the
message as the pending exception (overwriting any prior value), transfers
control to the resumption point at stack index depth − 1, never returns
normally, and leaves the handler depth unchanged. -/
theorem throw_with_active_handler_jumps (message : String) (st : RuntimeState)
    (h : 0 < st.handler_idx) :
    __darija_throw message st =
      CallResult.jump (st.handler_idx - 1)
        { st with current_exception := some message } "" "" := by
  simp [__darija_throw, h]

/-- Witness for C1 at a concrete state of depth 1 with a prior pending
exception, showing the overwrite and the jump to index 0. -/
theorem throw_with_active_handler_jumps_witness :
    (0 : Int) < 1 ∧
      __darija_throw "fresh" { initState with handler_idx := 1, current_exception := some "old" } =
        CallResult.jump 0
          { initState with handler_idx := 1, current_exception := some "fresh" } "" "" :=
  ⟨by decide, throw_with_active_handler_jumps "fresh"
    { initState with handler_idx := 1, current_exception := some "old" } (by decide)⟩

/-- Claim C2: with depth = 0, `__darija_throw` writes
`Uncaught exception: <message>` to standard error and terminates the
process with a non-zero exit status, never returning to the caller. -/
theorem throw_uncaught_exits_nonzero (message : String) (st : RuntimeState)
    (h : st.handler_idx = 0) :
    ∃ code : Int,
      __darija_throw message st =
        CallResult.exitP code st "" ("Uncaught exception: " ++ message ++ "\n") ∧
      code ≠ 0 := by
  refine ⟨1, ?_, by decide⟩
  simp [__darija_throw, h]

/-- Witness for C2 at the start state. -/
theorem throw_uncaught_exits_nonzero_witness :
    ∃ code : Int,
      __darija_throw "oops" initState =
        CallResult.exitP code initState "" ("Uncaught exception: " ++ "oops" ++ "\n") ∧
      code ≠ 0 :=
  throw_uncaught_exits_nonzero "oops" initState rfl

/-- Claim C3: `__darija_push_handler` below capacity increments the depth
by exactly one and changes nothing else; at capacity it writes the
too-many-nested-try-blocks diagnostic to standard error and exits with a
non-zero status, leaving depth unchanged. -/
theorem push_handler_increments_or_overflows (id : Int) (st : RuntimeState) :
    (st.handler_idx < MAX_EXCEPTION_HANDLERS →
      __darija_push_handler id st =
        CallResult.ret () { st with handler_idx := st.handler_idx + 1 } "" "") ∧
    (st.handler_idx = MAX_EXCEPTION_HANDLERS →
      __darija_push_handler id st =
        CallResult.exitP 1 st "" "Error: Too many nested try blocks\n" ∧ (1 : Int) ≠ 0) := by
  constructor
  · intro h
    simp [__darija_push_handler, h]
  · intro h
    refine ⟨?_, by decide⟩
    simp [__darija_push_handler, h]

/-- Witness for C3: success at depth 0, overflow at depth 32. -/
theorem push_handler_increments_or_overflows_witness :
    __darija_push_handler 7 initState =
      CallResult.ret () { initState with handler_idx := initState.handler_idx + 1 } "" "" ∧
    (__darija_push_handler 7 { initState with handler_idx := 32 } =
      CallResult.exitP 1 { initState with handler_idx := 32 } ""
        "Error: Too many nested try blocks\n" ∧ (1 : Int) ≠ 0) :=
  ⟨(push_handler_increments_or_overflows 7 initState).1 (by decide),
   (push_handler_increments_or_overflows 7 { initState with handler_idx := 32 }).2 rfl⟩

/-- Claim C4: the invariant 0 ≤ depth ≤ capacity holds in every reachable
state; the depth is 0 at process start and every operation preserves the
bounds. -/
theorem reachable_depth_bounds (st : RuntimeState) (h : Reachable st) :
    initState.handler_idx = 0 ∧
      0 ≤ st.handler_idx ∧ st.handler_idx ≤ MAX_EXCEPTION_HANDLERS := by
  refine ⟨rfl, ?_⟩
  induction h with
  | init => decide
  | push hst heq ih =>
    unfold __darija_push_handler at heq
    split at heq
    · rename_i hlt
      cases heq
      simp only
      unfold MAX_EXCEPTION_HANDLERS at hlt ⊢
      omega
    · cases heq
  | pop hst ih =>
    unfold __darija_pop_handler
    split
    · simp only
      unfold MAX_EXCEPTION_HANDLERS at ih ⊢
      omega
    · exact ih
  | throwJump hst heq ih =>
    unfold __darija_throw at heq
    split at heq
    · cases heq
      exact ih
    · cases heq
  | capture hst ih => exact ih

/-- Witness for C4 at the start state. -/
theorem reachable_depth_bounds_witness :
    initState.handler_idx = 0 ∧
      0 ≤ initState.handler_idx ∧ initState.handler_idx ≤ MAX_EXCEPTION_HANDLERS :=
  reachable_depth_bounds initState Reachable.init

/-- Claim C5: a successful `EnterTry` records the captured execution
context into the resumption-point slot it reserves (index equal to the
depth before the call), increments the depth, and a later throw from the
resulting state jumps exactly to that slot. -/
theorem enterTry_registers_resumption_point (id : Int) (ctx : Nat)
    (st : RuntimeState) (h0 : 0 ≤ st.handler_idx)
    (hlen : st.jmp_buf.length = 32)
    (hlt : st.handler_idx < MAX_EXCEPTION_HANDLERS) :
    ∃ st', EnterTry id ctx st = CallResult.ret () st' "" "" ∧
      st'.handler_idx = st.handler_idx + 1 ∧
      st'.jmp_buf[st.handler_idx.toNat]? = some (some ctx) ∧
      ∀ m, __darija_throw m st' =
        CallResult.jump st.handler_idx
          { st' with current_exception := some m } "" "" := by
  have htn : st.handler_idx.toNat < st.jmp_buf.length := by
    rw [hlen]; unfold MAX_EXCEPTION_HANDLERS at hlt; omega
  refine Exists.intro { st with handler_idx := st.handler_idx + 1, jmp_buf := st.jmp_buf.set st.handler_idx.toNat (some ctx) } ⟨?_, ?_, ?_, ?_⟩
  · unfold EnterTry __darija_push_handler
    rw [if_pos hlt]
    simp only
    rw [if_pos hlt]
  · rfl
  · simp only
    exact List.getElem?_set_eq_of_lt (some ctx) htn
  · intro m
    unfold __darija_throw
    simp only
    rw [if_pos (by omega)]
    congr 1
    omega

/-- Witness for C5 at the start state with context token 5. -/
theorem enterTry_registers_resumption_point_witness :
    ∃ st', EnterTry 1 5 initState = CallResult.ret () st' "" "" ∧
      st'.handler_idx = initState.handler_idx + 1 ∧
      st'.jmp_buf[initState.handler_idx.toNat]? = some (some 5) ∧
      ∀ m, __darija_throw m st' =
        CallResult.jump initState.handler_idx
          { st' with current_exception := some m } "" "" :=
  enterTry_registers_resumption_point 1 5 initState (by decide) (by decide) (by decide)

/-- One successful push step unfolds `enterN`. -/
theorem enterN_succ_of_push (n : Nat) (st st' : RuntimeState)
    (h : __darija_push_handler 0 st = CallResult.ret () st' "" "") :
    enterN (n + 1) st = enterN n st' := by
  conv_lhs => unfold enterN
  rw [h]

/-- `n` pushes from a state with room for all of them succeed and add `n`
to the depth. -/
theorem enterN_ok (n : Nat) : ∀ st : RuntimeState, 0 ≤ st.handler_idx →
    st.handler_idx + n ≤ 32 →
    enterN n st = CallResult.ret () { st with handler_idx := st.handler_idx + n } "" "" := by
  induction n with
  | zero =>
    intro st h0 h
    simp [enterN]
  | succ n ih =>
    intro st h0 h
    have hlt : st.handler_idx < MAX_EXCEPTION_HANDLERS := by
      unfold MAX_EXCEPTION_HANDLERS
      omega
    rw [enterN_succ_of_push n st { st with handler_idx := st.handler_idx + 1 }
      (by simp [__darija_push_handler, hlt])]
    rw [ih { st with handler_idx := st.handler_idx + 1 } (by simp only; omega)
      (by simp only; push_cast at h ⊢; omega)]
    have harith : st.handler_idx + 1 + (n : Int) = st.handler_idx + ((n + 1 : Nat) : Int) := by
      push_cast
      ring
    simp only [harith]

/-- `n` pops from a state of depth at least `n` subtract `n` from the
depth. -/
theorem exitN_sub (n : Nat) : ∀ st : RuntimeState, (n : Int) ≤ st.handler_idx →
    exitN n st = { st with handler_idx := st.handler_idx - n } := by
  induction n with
  | zero =>
    intro st h
    simp [exitN]
  | succ n ih =>
    intro st h
    have hpos : st.handler_idx > 0 := by push_cast at h; omega
    unfold exitN
    rw [show __darija_pop_handler st = { st with handler_idx := st.handler_idx - 1 } from by
      simp [__darija_pop_handler, hpos]]
    rw [ih { st with handler_idx := st.handler_idx - 1 } (by simp only; push_cast at h ⊢; omega)]
    have harith : st.handler_idx - 1 - (n : Int) = st.handler_idx - ((n + 1 : Nat) : Int) := by
      push_cast
      ring
    simp only [harith]

/-- Claim C6: `__darija_pop_handler` decrements the depth by one when it is
positive and is a no-op at depth 0; hence `n ≤ 32` pushes from the start
state all succeed and `n` subsequent pops restore the start state. -/
theorem pop_handler_balances_push (n : Nat) (st : RuntimeState) :
    (0 < st.handler_idx →
      __darija_pop_handler st = { st with handler_idx := st.handler_idx - 1 }) ∧
    (st.handler_idx = 0 → __darija_pop_handler st = st) ∧
    (n ≤ 32 → ∃ st', enterN n initState = CallResult.ret () st' "" "" ∧
      st'.handler_idx = n ∧ exitN n st' = initState) := by
  refine ⟨?_, ?_, ?_⟩
  · intro h
    simp [__darija_pop_handler, h]
  · intro h
    simp [__darija_pop_handler, h]
  · intro h
    refine Exists.intro { initState with handler_idx := (n : Int) } ⟨?_, rfl, ?_⟩
    · have h1 := enterN_ok n initState (by decide) (by show (0 : Int) + n ≤ 32; omega)
      simpa [initState] using h1
    · rw [exitN_sub n { initState with handler_idx := (n : Int) } (by simp only; omega)]
      simp [initState]

/-- Witness for C6 with two pushes and two pops. -/
theorem pop_handler_balances_push_witness :
    ∃ st', enterN 2 initState = CallResult.ret () st' "" "" ∧
      st'.handler_idx = 2 ∧ exitN 2 st' = initState :=
  (pop_handler_balances_push 2 initState).2.2 (by decide)

/-- Claim C7: `_9rahadi` returns the scanned integer on success; on parse
failure it writes a diagnostic to standard error and returns 0 to the
caller; in neither case does it terminate the process or jump. -/
theorem read_integer_recovers (scanned : Option Int) (st : RuntimeState) :
    (scanned = none →
      _9rahadi scanned st = CallResult.ret 0 st "" "Error: failed to read integer input\n") ∧
    (∀ v, scanned = some v → _9rahadi scanned st = CallResult.ret v st "" "") ∧
    (∀ c st' o e, _9rahadi scanned st ≠ CallResult.exitP c st' o e) ∧
    (∀ t st' o e, _9rahadi scanned st ≠ CallResult.jump t st' o e) := by
  cases scanned <;> simp [_9rahadi]

/-- Witness for C7 on a failed parse at the start state. -/
theorem read_integer_recovers_witness :
    _9rahadi none initState = CallResult.ret 0 initState "" "Error: failed to read integer input\n" :=
  (read_integer_recovers none initState).1 rfl

/-- Claim C8: `tba3_str` writes the string followed by a newline, and the
literal text `null` followed by a newline for the null reference. -/
theorem print_string_output (s : String) :
    tba3_str (some s) = s ++ "\n" ∧ tba3_str none = "null\n" :=
  ⟨rfl, rfl⟩

/-- Claim C9: an uncaught throw (depth 0) terminates without modifying any
exception-mechanism state — in particular no copy of the thrown message is
stored in the pending-exception slot. -/
theorem uncaught_throw_preserves_state (message : String) (st : RuntimeState)
    (h : st.handler_idx = 0) :
    ∀ c st' o e, __darija_throw message st = CallResult.exitP c st' o e →
      st'.current_exception = st.current_exception ∧
      st'.handler_idx = st.handler_idx ∧ st'.jmp_buf = st.jmp_buf := by
  intro c st' o e heq
  unfold __darija_throw at heq
  rw [if_neg (by omega)] at heq
  cases heq
  exact ⟨rfl, rfl, rfl⟩

/-- Witness for C9 at the start state. -/
theorem uncaught_throw_preserves_state_witness :
    initState.current_exception = initState.current_exception ∧
    initState.handler_idx = initState.handler_idx ∧
    initState.jmp_buf = initState.jmp_buf :=
  uncaught_throw_preserves_state "boom" initState rfl 1 initState ""
    ("Uncaught exception: " ++ "boom" ++ "\n") (by simp [__darija_throw, initState])

/-- Claim C10: from the start state exactly 32 consecutive pushes all
succeed, the 33rd triggers the fatal overflow with the depth at 32, the
overflow branch is unreachable whenever the depth is below 32, and it is
taken only when the depth is not below 32. -/
theorem handler_capacity_exact :
    (∃ st, enterN 32 initState = CallResult.ret () st "" "" ∧ st.handler_idx = 32) ∧
    (∃ st, enterN 33 initState =
        CallResult.exitP 1 st "" "Error: Too many nested try blocks\n" ∧
      st.handler_idx = 32) ∧
    (∀ id st, st.handler_idx < 32 →
      ∃ st', __darija_push_handler id st = CallResult.ret () st' "" "" ∧
        st'.handler_idx = st.handler_idx + 1) ∧
    (∀ id st c st' o e, __darija_push_handler id st = CallResult.exitP c st' o e →
      ¬ st.handler_idx < 32) := by
  refine ⟨⟨{ initState with handler_idx := 32 }, by decide, rfl⟩,
    ⟨{ initState with handler_idx := 32 }, by decide, rfl⟩, ?_, ?_⟩
  · intro id st h
    exact ⟨{ st with handler_idx := st.handler_idx + 1 },
      by simp [__darija_push_handler, MAX_EXCEPTION_HANDLERS, h], rfl⟩
  · intro id st c st' o e heq
    unfold __darija_push_handler MAX_EXCEPTION_HANDLERS at heq
    split at heq
    · cases heq
    · rename_i hge
      exact hge

/-- Witness for C10 instantiating the success branch at the start state. -/
theorem handler_capacity_exact_witness :
    ∃ st', __darija_push_handler 9 initState = CallResult.ret () st' "" "" ∧
      st'.handler_idx = initState.handler_idx + 1 :=
  handler_capacity_exact.2.2.1 9 initState (by decide)
